import Mathlib

/-!
Verification of the go-jsonrpc-client library: a shallow embedding of the
JSON-RPC identifier type (`IDValue`, from jsonrpc.go), the message
envelopes, and the client's single and batch invocation logic (client.go),
together with theorems settling the specified properties.

Go pointers that are only used as "present / absent" markers are modelled
as `Option`; Go's `int` is modelled as `Int` (all identifier values in
scope are far from the 64-bit boundary, so wraparound never matters);
fallible Go methods returning `error` are modelled with `Except`.
JSON texts are modelled at the level of parsed JSON values.
-/

namespace JsonrpcClient

/-- A JSON value, as far as the library inspects one.  `num` covers
integer-valued JSON numbers (the only numbers `IDValue` accepts); JSON
payloads that are neither `null` nor a string nor an integer (objects,
arrays, booleans) make `IDValue.UnmarshalJSON` fail. -/
inductive JSONValue where
  | null
  | str (s : String)
  | num (n : Int)
  | boolean (b : Bool)
  | obj (fields : List (String × JSONValue))

/-- Embeds the Go struct `IDValue` (jsonrpc.go): two nullable fields
`strVar *string` and `intVar *int`. -/
structure IDValue where
  strVar : Option String
  intVar : Option Int
deriving DecidableEq

/-- `NewID` (jsonrpc.go) applied to a string argument. -/
def NewIDStr (s : String) : IDValue := ⟨some s, none⟩

/-- `NewID` (jsonrpc.go) applied to an integer argument (the `int`,
`int32` and `uint32` instantiations all store the integer value). -/
def NewIDInt (n : Int) : IDValue := ⟨none, some n⟩

/-- The zero `IDValue{}`: both variant fields unset ("absent"). -/
def IDValue.empty : IDValue := ⟨none, none⟩

/-- The spec's invariant on identifiers: at most one of the string and
integer variants is set. -/
def IDValue.WF (i : IDValue) : Prop := i.strVar = none ∨ i.intVar = none

/-- `IDValue.IsZero` (jsonrpc.go): true iff neither variant is set. -/
def IDValue.IsZero (i : IDValue) : Bool :=
  i.strVar.isNone && i.intVar.isNone

/-- `IDValue.Equal` (jsonrpc.go).  The Go signature takes `other any`;
the argument is modelled as `Option IDValue`, with `none` standing for a
nil reference (Go's `other == nil` check).  The switch compares the
string variants when both are set, else the integer variants when both
are set, else answers false. -/
def IDValue.Equal (i : IDValue) (other : Option IDValue) : Bool :=
  match other with
  | none => false
  | some o =>
    match i.strVar, o.strVar with
    | some a, some b => a == b
    | _, _ =>
      match i.intVar, o.intVar with
      | some a, some b => a == b
      | _, _ => false

/-- `IDValue.UnmarshalJSON` (jsonrpc.go).  A wire `null` resets both
fields; a JSON string sets the string variant; an integer JSON number
sets the integer variant; anything else is an "invalid ID format" error.
The receiver is threaded because Go mutates it in place (the non-null
branches leave the other field as it was). -/
def IDValue.UnmarshalJSON (i : IDValue) (v : JSONValue) : Except String IDValue :=
  match v with
  | .null => .ok ⟨none, none⟩
  | .str s => .ok { i with strVar := some s }
  | .num n => .ok { i with intVar := some n }
  | _ => .error "invalid ID format"

/-- `IDValue.MarshalJSON` (jsonrpc.go): the string variant if set, else
the integer variant if set, else the JSON literal `null`. -/
def IDValue.MarshalJSON (i : IDValue) : JSONValue :=
  match i.strVar with
  | some s => .str s
  | none =>
    match i.intVar with
    | some n => .num n
    | none => .null

/-- `IDValue.String` (jsonrpc.go): the string variant if set, else the
decimal rendering of the integer variant if set, else `"null"`.
`toString : Int → String` renders exactly like Go's `fmt.Sprintf("%d", n)`. -/
def IDValue.String (i : IDValue) : String :=
  match i.strVar with
  | some s => s
  | none =>
    match i.intVar with
    | some n => toString n
    | none => "null"

/-- Decoding a wire id into a fresh (zero) `IDValue`, as happens when a
request or response envelope is unmarshalled. -/
def decodeID (v : JSONValue) : Except String IDValue :=
  IDValue.empty.UnmarshalJSON v

/-- Embeds the Go struct `JSONRPCError` (jsonrpc.go). -/
structure JSONRPCError where
  Code : Int
  Message : String
  Data : Option JSONValue

/-- Embeds the Go struct `JSONRPCRequest` (jsonrpc.go).  `ID` is a
pointer field (`none` = nil pointer). -/
structure JSONRPCRequest where
  Version : String
  ID : Option IDValue
  Method : String
  Params : Option JSONValue

/-- Embeds the Go struct `JSONRPCResponse` (jsonrpc.go).  `Result` is a
`json.RawMessage` (`none` = nil). -/
structure JSONRPCResponse where
  Version : String
  ID : Option IDValue
  Result : Option JSONValue
  Error : Option JSONRPCError

/-- The serialized form of the request's `id` field, honouring the
`json:"id,omitzero"` tag: the field is omitted when the pointer is nil
and also when `IsZero()` reports the value as zero (encoding/json treats
a nil pointer as zero and otherwise consults the `IsZero` method). -/
def JSONRPCRequest.idField (r : JSONRPCRequest) : Option JSONValue :=
  match r.ID with
  | none => none
  | some i => if i.IsZero then none else some i.MarshalJSON

/-- Serialization of a `JSONRPCRequest` to a JSON object, in struct
field order; `id` is governed by `idField` and `params` carries the
`omitempty` tag (omitted when nil). -/
def JSONRPCRequest.MarshalJSON (r : JSONRPCRequest) : JSONValue :=
  .obj (("jsonrpc", JSONValue.str r.Version) ::
    ((match r.idField with
      | none => []
      | some v => [("id", v)]) ++
     (("method", JSONValue.str r.Method) ::
      (match r.Params with
       | none => []
       | some p => [("params", p)]))))

/-- Whether a JSON object carries a member with the given key. -/
def JSONValue.hasField (v : JSONValue) (key : String) : Bool :=
  match v with
  | .obj fields => fields.any (fun f => f.1 == key)
  | _ => false

/-- Embeds the Go struct `Invoke[Tin, Tout]` (client.go).  The typed
request payload only matters through the JSON it serializes to, so `Tin`
is collapsed to `Option JSONValue`, with `none` standing for the `Omit`
sentinel type (the two places Go inspects `Tin` are the `isOmit` type
tests in `JSONRPCRequest` and `Unmarshal`). -/
structure Invoke (Tout : Type) where
  ID : Option IDValue
  Name : String
  Request : Option JSONValue
  Response : Tout

/-- `Invoke.JSONRPCRequest` (client.go): version "2.0", the descriptor's
id and method name, and `params` set to the request payload unless it is
the `Omit` sentinel. -/
def Invoke.JSONRPCRequest {Tout : Type} (d : Invoke Tout) : JSONRPCRequest :=
  { Version := "2.0", ID := d.ID, Method := d.Name, Params := d.Request }

/-- The error taxonomy of errors.go, restricted to the cases the client
itself produces (transport-layer failures are carried opaquely). -/
inductive Failure where
  | transportFailure (msg : String)
  | invalidRequest (msg : String)
  | emptyResponse (method : String)
  | emptyResult (method : String)
  | unmarshalFailure (method : String) (err : String)
  | rpcError (method : String) (code : Int) (message : String) (data : Option JSONValue)
  | missingResponse (method : String)

/-- `Invoke.Unmarshal` (client.go): a no-op when the request payload is
the `Omit` sentinel; `EmptyResultError` when the response carries no
result bytes; otherwise the result is parsed into the typed response
slot (`dec` models `json.Unmarshal` at the type `Tout`), wrapping a
parse failure in `UnmarshalError`. -/
def Invoke.Unmarshal {Tout : Type} (dec : JSONValue → Except String Tout)
    (d : Invoke Tout) (resp : JSONRPCResponse) : Except Failure (Invoke Tout) :=
  if d.Request.isNone then .ok d
  else
    match resp.Result with
    | none => .error (.emptyResult d.Name)
    | some raw =>
      match dec raw with
      | .error e => .error (.unmarshalFailure d.Name e)
      | .ok v => .ok { d with Response := v }

/-- Embeds the Go struct `SendRequestInput` (transport contract used by
client.go). -/
structure SendRequestInput where
  Requests : List JSONRPCRequest
  Batch : Bool

/-- Embeds the Go struct `SendRequestOutput`. -/
structure SendRequestOutput where
  Responses : List JSONRPCResponse

/-- A transport: Go's `SendRequest` returns `(*SendRequestOutput, error)`,
so the success value is an `Option` (the output pointer may be nil). -/
abbrev Transport := SendRequestInput → Except String (Option SendRequestOutput)

/-- The id-assignment loop of `Client.InvokeBatch` (client.go lines
147-156): each request whose `ID` pointer is nil receives the next value
from the generator, modelled as the stream `generateId` indexed by how
many ids have been generated so far. -/
def assignIds (generateId : Nat → Option IDValue) :
    List JSONRPCRequest → Nat → List JSONRPCRequest
  | [], _ => []
  | r :: rest, k =>
    match r.ID with
    | some _ => r :: assignIds generateId rest k
    | none => { r with ID := generateId k } :: assignIds generateId rest (k + 1)

/-- Lookup in the correlation map of `Client.InvokeBatch` (client.go
lines 174-179): the map is keyed by `resp.ID.String()` for every
response whose id pointer is non-nil, and a later response with the same
key overwrites an earlier one, so the lookup prefers the tail. -/
def responseMapLookup (responses : List JSONRPCResponse) (key : String) :
    Option JSONRPCResponse :=
  match responses with
  | [] => none
  | r :: rest =>
    match responseMapLookup rest key with
    | some found => some found
    | none =>
      match r.ID with
      | some rid => if rid.String == key then some r else none
      | none => none

/-- The response-processing loop of `Client.InvokeBatch` (client.go
lines 182-208), walking descriptor/request pairs in request order: a
request whose id is nil is skipped (notification, no response expected);
otherwise its id's string form is looked up in the correlation map,
failing with `MissingResponseError` when absent and with `RPCError` when
the matched response carries an error payload; otherwise the response is
decoded into the descriptor's slot.  The loop returns at the first
error; descriptors already decoded keep their new slot values and the
remaining descriptors are left untouched. -/
def processBatch {Tout : Type} (dec : JSONValue → Except String Tout) :
    List (Invoke Tout × JSONRPCRequest) → List JSONRPCResponse →
    List (Invoke Tout) × Option Failure
  | [], _ => ([], none)
  | (d, request) :: rest, responses =>
    match request.ID with
    | none =>
      (d :: (processBatch dec rest responses).1, (processBatch dec rest responses).2)
    | some rid =>
      match responseMapLookup responses rid.String with
      | none => (d :: rest.map Prod.fst, some (.missingResponse request.Method))
      | some resp =>
        match resp.Error with
        | some er =>
          (d :: rest.map Prod.fst,
           some (.rpcError request.Method er.Code er.Message er.Data))
        | none =>
          match Invoke.Unmarshal dec d resp with
          | .error e => (d :: rest.map Prod.fst, some e)
          | .ok d' =>
            (d' :: (processBatch dec rest responses).1, (processBatch dec rest responses).2)

/-- `Client.InvokeBatch` (client.go): reject an empty descriptor list,
assign ids, send the batch, fail with `EmptyResponseError` (named after
the first request's method) when the transport yields a nil output, and
otherwise correlate and decode with `processBatch`.  As in
`Client.Invoke`, the final descriptor states are returned alongside the
error. -/
def Client.InvokeBatch {Tout : Type} (generateId : Nat → Option IDValue)
    (transport : Transport) (dec : JSONValue → Except String Tout)
    (reqs : List (Invoke Tout)) : List (Invoke Tout) × Option Failure :=
  match reqs with
  | [] => ([], some (.invalidRequest "no requests provided"))
  | d0 :: rest =>
    let requests := assignIds generateId ((d0 :: rest).map Invoke.JSONRPCRequest) 0
    match transport { Requests := requests, Batch := true } with
    | .error e => (d0 :: rest, some (.transportFailure e))
    | .ok none =>
      -- requests[0].Method: id assignment leaves Method untouched, so this
      -- is the first descriptor's method name.
      (d0 :: rest, some (.emptyResponse d0.Name))
    | .ok (some output) =>
      processBatch dec ((d0 :: rest).zip requests) output.Responses

/-- `Client.Invoke` (client.go).  `generateId` is the value the client's
id generator would produce for this call (custom generators installed
with `WithIDGenerator` may return nil, hence an `Option`).  The updated
descriptor is returned together with the error, mirroring Go's in-place
mutation of the caller-owned descriptor. -/
def Client.Invoke {Tout : Type} (generateId : Option IDValue)
    (transport : Transport) (dec : JSONValue → Except String Tout)
    (d : Invoke Tout) : Invoke Tout × Option Failure :=
  let request : JSONRPCRequest :=
    match d.JSONRPCRequest.ID with
    | none => { d.JSONRPCRequest with ID := generateId }
    | some _ => d.JSONRPCRequest
  match transport { Requests := [request], Batch := false } with
  | .error e => (d, some (.transportFailure e))
  | .ok none => (d, some (.emptyResponse request.Method))
  | .ok (some output) =>
    match output.Responses with
    | [] => (d, some (.emptyResponse request.Method))
    | response :: _ =>
      match response.Error with
      | some er => (d, some (.rpcError request.Method er.Code er.Message er.Data))
      | none =>
        match Invoke.Unmarshal dec d response with
        | .error e => (d, some e)
        | .ok d' => (d', none)

/-- Claim C1 counterexample: decoding the JSON input `null` into the
identifier `"test-id"` (the repository's own test input) yields the
identifier with both variants unset, on which `IsZero` returns `true` —
the claim requires `IsZero` to return `false` on every identifier
decoded from `null`. -/
theorem unmarshal_null_is_absent_cex :
    (NewIDStr "test-id").UnmarshalJSON JSONValue.null = Except.ok IDValue.empty
    ∧ IDValue.empty.IsZero = true := ⟨rfl, rfl⟩

/-- Claim C1 (amended): decoding the JSON input `null` into any
identifier resets it to the absent state: `IsZero` returns `true` on the
result, the result is the absent identifier itself, and an
encode-then-decode round trip keeps it at the absent identifier, so the
explicit-null state is not distinguishable from absence. -/
theorem unmarshal_null_is_absent (i : IDValue) :
    i.UnmarshalJSON JSONValue.null = Except.ok IDValue.empty
    ∧ IDValue.empty.IsZero = true
    ∧ decodeID IDValue.empty.MarshalJSON = Except.ok IDValue.empty :=
  ⟨rfl, rfl, rfl⟩

/-- Claim C4: on identifiers satisfying the at-most-one-variant
invariant, `Equal` answers `true` exactly when both sides hold the same
variant with the same value; an absent side, a cross-variant comparison
(string "42" against integer 42), and absent-against-absent all answer
`false`. -/
theorem equal_same_variant_same_value :
    (∀ i o : IDValue, i.WF → o.WF →
      (i.Equal (some o) = true ↔
        ((∃ s, i.strVar = some s ∧ o.strVar = some s) ∨
         (∃ n, i.intVar = some n ∧ o.intVar = some n))))
    ∧ (∀ i o : IDValue, i.IsZero = true → i.Equal (some o) = false)
    ∧ (∀ i o : IDValue, o.IsZero = true → i.Equal (some o) = false)
    ∧ (∀ (s : String) (n : Int), (NewIDStr s).Equal (some (NewIDInt n)) = false)
    ∧ (∀ (s : String) (n : Int), (NewIDInt n).Equal (some (NewIDStr s)) = false)
    ∧ IDValue.empty.Equal (some IDValue.empty) = false := by
  refine ⟨?_, ?_, ?_, fun s n => rfl, fun s n => rfl, rfl⟩
  · rintro ⟨is, ii⟩ ⟨os, oi⟩ hi ho
    cases is <;> cases ii <;> cases os <;> cases oi <;>
      simp_all [IDValue.Equal, IDValue.WF]
    all_goals exact eq_comm
  · rintro ⟨is, ii⟩ ⟨os, oi⟩ h
    cases is <;> cases ii <;> cases os <;> cases oi <;>
      simp_all [IDValue.Equal, IDValue.IsZero]
  · rintro ⟨is, ii⟩ ⟨os, oi⟩ h
    cases is <;> cases ii <;> cases os <;> cases oi <;>
      simp_all [IDValue.Equal, IDValue.IsZero]

/-- Witness for C4: the characterization applied to two copies of the
string identifier "alpha" (equal) and to an absent identifier compared
with the integer identifier 3 (not equal). -/
theorem equal_same_variant_same_value_witness :
    (NewIDStr "alpha").Equal (some (NewIDStr "alpha")) = true
    ∧ IDValue.empty.Equal (some (NewIDInt 3)) = false := by
  constructor
  · exact (equal_same_variant_same_value.1 (NewIDStr "alpha") (NewIDStr "alpha")
      (Or.inr rfl) (Or.inr rfl)).mpr (Or.inl ⟨"alpha", rfl, rfl⟩)
  · exact equal_same_variant_same_value.2.1 IDValue.empty (NewIDInt 3) rfl

/-- Claim C5 counterexample: the identifier produced by decoding `null`
is the absent identifier itself; it encodes back to `null` and decodes
to the absent identifier again, so the encode/decode round trip does not
preserve any distinction between the explicit-null and absent states. -/
theorem roundtrip_null_collapse_cex :
    decodeID JSONValue.null = Except.ok IDValue.empty
    ∧ IDValue.empty.MarshalJSON = JSONValue.null
    ∧ IDValue.empty.IsZero = true
    ∧ decodeID IDValue.empty.MarshalJSON = Except.ok IDValue.empty :=
  ⟨rfl, rfl, rfl, rfl⟩

/-- Claim C5 (amended): for every string-valued and every integer-valued
identifier, decoding its encoding reproduces the identifier exactly
(hence `Equal`-equivalently), and the valued and absent states are
preserved; the explicit-null state however collapses to absent (it is
the absent identifier, which round trips to itself through `null`). -/
theorem roundtrip_valued_ids (s : String) (n : Int) :
    decodeID (NewIDStr s).MarshalJSON = Except.ok (NewIDStr s)
    ∧ (NewIDStr s).Equal (some (NewIDStr s)) = true
    ∧ decodeID (NewIDInt n).MarshalJSON = Except.ok (NewIDInt n)
    ∧ (NewIDInt n).Equal (some (NewIDInt n)) = true
    ∧ decodeID IDValue.empty.MarshalJSON = Except.ok IDValue.empty := by
  refine ⟨rfl, ?_, rfl, ?_, rfl⟩
  · simp [IDValue.Equal, NewIDStr]
  · simp [IDValue.Equal, NewIDInt]

/-- Claim C8: marshalling an identifier in the absent state (which is
also what decoding an explicit wire `null` produces) yields the JSON
literal `null`; and the serialized form of a request whose id is absent
— a nil id pointer, or a pointer to a zero identifier — omits the `id`
member entirely instead of serializing it as `null`. -/
theorem marshal_null_and_absent_id_omitted :
    (∀ i : IDValue, i.IsZero = true → i.MarshalJSON = JSONValue.null)
    ∧ (∀ r : JSONRPCRequest, r.ID = none → r.MarshalJSON.hasField "id" = false)
    ∧ (∀ r : JSONRPCRequest, ∀ i : IDValue, r.ID = some i → i.IsZero = true →
        r.MarshalJSON.hasField "id" = false) := by
  refine ⟨?_, ?_, ?_⟩
  · rintro ⟨is, ii⟩ h
    cases is <;> cases ii <;> simp_all [IDValue.MarshalJSON, IDValue.IsZero]
  · rintro ⟨v, rid, m, ps⟩ h
    subst h
    cases ps <;>
      simp [JSONRPCRequest.MarshalJSON, JSONRPCRequest.idField, JSONValue.hasField]
  · rintro ⟨v, rid, m, ps⟩ i h hz
    subst h
    cases ps <;>
      simp [JSONRPCRequest.MarshalJSON, JSONRPCRequest.idField, JSONValue.hasField, hz]

/-- Witness for C8: a request with a nil id pointer, and one whose id
points at the zero identifier, both serialize without an `id` member,
and the zero identifier itself marshals to `null`. -/
theorem marshal_null_and_absent_id_omitted_witness :
    IDValue.empty.MarshalJSON = JSONValue.null
    ∧ (JSONRPCRequest.mk "2.0" none "test.method" none).MarshalJSON.hasField "id" = false
    ∧ (JSONRPCRequest.mk "2.0" (some IDValue.empty) "test.method"
        (some (JSONValue.str "p"))).MarshalJSON.hasField "id" = false := by
  refine ⟨?_, ?_, ?_⟩
  · exact marshal_null_and_absent_id_omitted.1 IDValue.empty rfl
  · exact marshal_null_and_absent_id_omitted.2.1 _ rfl
  · exact marshal_null_and_absent_id_omitted.2.2 _ IDValue.empty rfl rfl

/-- Claim C9: comparing any identifier against a nil reference always
completes and returns `false`, whatever the identifier's own state. -/
theorem equal_nil_reference_false (i : IDValue) : i.Equal none = false := rfl

/-- Claim C7: a single `Invoke` against a transport that succeeds with a
nil output, or with an empty response list, fails with `EmptyResponse`
carrying the request's method; and when the single response carries an
error payload, it fails with `RPCError` carrying the method and the
payload's code, message and data, leaving the descriptor untouched. -/
theorem invoke_empty_response_and_rpc_error {Tout : Type}
    (dec : JSONValue → Except String Tout) (generateId : Option IDValue)
    (d : Invoke Tout) (resp : JSONRPCResponse) (er : JSONRPCError)
    (herr : resp.Error = some er) :
    Client.Invoke generateId (fun _ => Except.ok none) dec d
        = (d, some (Failure.emptyResponse d.Name))
    ∧ Client.Invoke generateId (fun _ => Except.ok (some ⟨[]⟩)) dec d
        = (d, some (Failure.emptyResponse d.Name))
    ∧ Client.Invoke generateId (fun _ => Except.ok (some ⟨[resp]⟩)) dec d
        = (d, some (Failure.rpcError d.Name er.Code er.Message er.Data)) := by
  refine ⟨?_, ?_, ?_⟩ <;>
    cases hd : d.ID <;>
      simp [Client.Invoke, Invoke.JSONRPCRequest, hd, herr]

/-- Witness for C7: the error-payload branch evaluated on a concrete
descriptor and a response carrying error code -32600, "Invalid Request". -/
theorem invoke_rpc_error_witness :
    Client.Invoke (some (NewIDInt 1)) (fun _ => Except.ok (some
        ⟨[⟨"2.0", some (NewIDInt 1), none, some ⟨-32600, "Invalid Request", none⟩⟩]⟩))
      (fun v => Except.ok v)
      (⟨none, "test.method", some (JSONValue.str "p"), JSONValue.null⟩ : Invoke JSONValue)
      = (⟨none, "test.method", some (JSONValue.str "p"), JSONValue.null⟩,
         some (Failure.rpcError "test.method" (-32600) "Invalid Request" none)) :=
  (invoke_empty_response_and_rpc_error (fun v => Except.ok v) (some (NewIDInt 1))
    _ _ _ rfl).2.2

/-- Claim C2: in a two-descriptor batch whose first request ends up with
no id (the generator produced none for it, so it is sent as a
notification) while the transport returns only the second descriptor's
response, `InvokeBatch` succeeds: the notification descriptor is skipped
with no response expected and its slot is untouched, and the second
descriptor's slot receives its decoded response. -/
theorem invokeBatch_notification_skipped {Tout : Type}
    (dec : JSONValue → Except String Tout) (generateId : Nat → Option IDValue)
    (d1 d2 d2' : Invoke Tout) (id2 : IDValue) (resp : JSONRPCResponse)
    (hgen : generateId 0 = none)
    (h1 : d1.ID = none)
    (h2 : d2.ID = some id2)
    (hrid : resp.ID = some id2)
    (herr : resp.Error = none)
    (hdec : Invoke.Unmarshal dec d2 resp = Except.ok d2') :
    Client.InvokeBatch generateId (fun _ => Except.ok (some ⟨[resp]⟩)) dec [d1, d2]
      = ([d1, d2'], none) := by
  simp [Client.InvokeBatch, assignIds, processBatch, responseMapLookup,
    Invoke.JSONRPCRequest, h1, h2, hgen, hrid, herr, hdec]

/-- Witness for C2: a notification descriptor paired with a decoded
call, evaluated on concrete values. -/
theorem invokeBatch_notification_skipped_witness :
    Client.InvokeBatch (fun _ => none)
      (fun _ => Except.ok (some ⟨[⟨"2.0", some (NewIDStr "b"),
        some (JSONValue.str "ok"), none⟩]⟩))
      (fun v => Except.ok v)
      [(⟨none, "notify", some (JSONValue.str "p1"), JSONValue.null⟩ : Invoke JSONValue),
       ⟨some (NewIDStr "b"), "add", some (JSONValue.str "p2"), JSONValue.null⟩]
      = ([⟨none, "notify", some (JSONValue.str "p1"), JSONValue.null⟩,
          ⟨some (NewIDStr "b"), "add", some (JSONValue.str "p2"), JSONValue.str "ok"⟩],
         none) :=
  invokeBatch_notification_skipped (fun v => Except.ok v) (fun _ => none)
    _ _ _ (NewIDStr "b") _ rfl rfl rfl rfl rfl rfl

/-- Claim C6: in a two-descriptor batch with distinct assigned ids
(distinct string renderings), each descriptor's own result is decoded
into its own slot whether the transport returns the two responses in
request order or reversed — the final slot contents are identical in
both cases. -/
theorem invokeBatch_order_independence {Tout : Type}
    (dec : JSONValue → Except String Tout) (generateId : Nat → Option IDValue)
    (d1 d2 d1' d2' : Invoke Tout) (id1 id2 : IDValue)
    (resp1 resp2 : JSONRPCResponse)
    (h1 : d1.ID = some id1) (h2 : d2.ID = some id2)
    (hne : id1.String ≠ id2.String)
    (hr1 : resp1.ID = some id1) (hr2 : resp2.ID = some id2)
    (he1 : resp1.Error = none) (he2 : resp2.Error = none)
    (hd1 : Invoke.Unmarshal dec d1 resp1 = Except.ok d1')
    (hd2 : Invoke.Unmarshal dec d2 resp2 = Except.ok d2') :
    Client.InvokeBatch generateId (fun _ => Except.ok (some ⟨[resp2, resp1]⟩))
        dec [d1, d2] = ([d1', d2'], none)
    ∧ Client.InvokeBatch generateId (fun _ => Except.ok (some ⟨[resp1, resp2]⟩))
        dec [d1, d2] = ([d1', d2'], none) := by
  have hne1 : (id1.String == id2.String) = false := beq_eq_false_iff_ne.mpr hne
  have hne2 : (id2.String == id1.String) = false :=
    beq_eq_false_iff_ne.mpr (Ne.symm hne)
  constructor <;>
    simp [Client.InvokeBatch, assignIds, processBatch, responseMapLookup,
      Invoke.JSONRPCRequest, h1, h2, hr1, hr2, he1, he2, hd1, hd2, hne1, hne2]

/-- Witness for C6: two calls with ids "a" and "b" against a transport
answering in reversed order still fill each slot with its own result. -/
theorem invokeBatch_order_independence_witness :
    Client.InvokeBatch (fun _ => none)
      (fun _ => Except.ok (some ⟨[⟨"2.0", some (NewIDStr "b"),
          some (JSONValue.str "r2"), none⟩,
        ⟨"2.0", some (NewIDStr "a"), some (JSONValue.str "r1"), none⟩]⟩))
      (fun v => Except.ok v)
      [(⟨some (NewIDStr "a"), "m1", some (JSONValue.str "p1"), JSONValue.null⟩ :
          Invoke JSONValue),
       ⟨some (NewIDStr "b"), "m2", some (JSONValue.str "p2"), JSONValue.null⟩]
      = ([⟨some (NewIDStr "a"), "m1", some (JSONValue.str "p1"), JSONValue.str "r1"⟩,
          ⟨some (NewIDStr "b"), "m2", some (JSONValue.str "p2"), JSONValue.str "r2"⟩],
         none) :=
  (invokeBatch_order_independence (fun v => Except.ok v) (fun _ => none)
    ⟨some (NewIDStr "a"), "m1", some (JSONValue.str "p1"), JSONValue.null⟩
    ⟨some (NewIDStr "b"), "m2", some (JSONValue.str "p2"), JSONValue.null⟩
    ⟨some (NewIDStr "a"), "m1", some (JSONValue.str "p1"), JSONValue.str "r1"⟩
    ⟨some (NewIDStr "b"), "m2", some (JSONValue.str "p2"), JSONValue.str "r2"⟩
    (NewIDStr "a") (NewIDStr "b")
    ⟨"2.0", some (NewIDStr "a"), some (JSONValue.str "r1"), none⟩
    ⟨"2.0", some (NewIDStr "b"), some (JSONValue.str "r2"), none⟩
    rfl rfl (by decide) rfl rfl rfl rfl rfl rfl).1

/-- Claim C3: batch processing stops at the first correlation error, in
request order.  With three descriptors where the first decodes
successfully and the second's id has no matching response, the returned
error is `MissingResponse` naming the second descriptor's method — no
error aggregation — while the first descriptor's slot keeps its decoded
value (no rollback) and the third descriptor is left untouched even if
its id also has no matching response. -/
theorem invokeBatch_stops_at_first_missing {Tout : Type}
    (dec : JSONValue → Except String Tout) (generateId : Nat → Option IDValue)
    (d1 d2 d3 d1' : Invoke Tout) (id1 id2 : IDValue)
    (resp1 : JSONRPCResponse) (responses : List JSONRPCResponse)
    (h1 : d1.ID = some id1) (h2 : d2.ID = some id2)
    (hl1 : responseMapLookup responses id1.String = some resp1)
    (he1 : resp1.Error = none)
    (hd1 : Invoke.Unmarshal dec d1 resp1 = Except.ok d1')
    (hl2 : responseMapLookup responses id2.String = none) :
    Client.InvokeBatch generateId (fun _ => Except.ok (some ⟨responses⟩))
        dec [d1, d2, d3]
      = ([d1', d2, d3], some (Failure.missingResponse d2.Name)) := by
  cases hd3 : d3.ID <;>
    simp [Client.InvokeBatch, assignIds, processBatch,
      Invoke.JSONRPCRequest, h1, h2, hd3, hl1, he1, hd1, hl2]

/-- Witness for C3: of three calls, the transport answers only the
first; the result names the second method as missing, keeps the first
slot's decoded value and leaves the third slot untouched. -/
theorem invokeBatch_stops_at_first_missing_witness :
    Client.InvokeBatch (fun _ => none)
      (fun _ => Except.ok (some ⟨[⟨"2.0", some (NewIDStr "a"),
        some (JSONValue.str "r1"), none⟩]⟩))
      (fun v => Except.ok v)
      [(⟨some (NewIDStr "a"), "m1", some (JSONValue.str "p1"), JSONValue.null⟩ :
          Invoke JSONValue),
       ⟨some (NewIDStr "b"), "m2", some (JSONValue.str "p2"), JSONValue.null⟩,
       ⟨some (NewIDStr "c"), "m3", some (JSONValue.str "p3"), JSONValue.null⟩]
      = ([⟨some (NewIDStr "a"), "m1", some (JSONValue.str "p1"), JSONValue.str "r1"⟩,
          ⟨some (NewIDStr "b"), "m2", some (JSONValue.str "p2"), JSONValue.null⟩,
          ⟨some (NewIDStr "c"), "m3", some (JSONValue.str "p3"), JSONValue.null⟩],
         some (Failure.missingResponse "m2")) :=
  invokeBatch_stops_at_first_missing (fun v => Except.ok v) (fun _ => none)
    _ _ _ _ (NewIDStr "a") (NewIDStr "b") _ _
    rfl rfl rfl rfl rfl rfl

/-- Claim C10: batch correlation matches ids by their string rendering,
not by `Equal`: a request sent with the string id "42" is matched by a
response carrying the integer id 42 and its slot is decoded from that
response, and vice versa, even though `Equal` answers false on that pair
in both directions. -/
theorem invokeBatch_correlates_by_string_rendering {Tout : Type}
    (dec : JSONValue → Except String Tout) (generateId : Nat → Option IDValue)
    (d e d' e' : Invoke Tout) (resp respE : JSONRPCResponse)
    (hd : d.ID = some (NewIDStr "42"))
    (hrid : resp.ID = some (NewIDInt 42))
    (herr : resp.Error = none)
    (hdec : Invoke.Unmarshal dec d resp = Except.ok d')
    (he : e.ID = some (NewIDInt 42))
    (hridE : respE.ID = some (NewIDStr "42"))
    (herrE : respE.Error = none)
    (hdecE : Invoke.Unmarshal dec e respE = Except.ok e') :
    Client.InvokeBatch generateId (fun _ => Except.ok (some ⟨[resp]⟩)) dec [d]
        = ([d'], none)
    ∧ Client.InvokeBatch generateId (fun _ => Except.ok (some ⟨[respE]⟩)) dec [e]
        = ([e'], none)
    ∧ (NewIDStr "42").Equal (some (NewIDInt 42)) = false
    ∧ (NewIDInt 42).Equal (some (NewIDStr "42")) = false := by
  have h42 : (NewIDInt 42).String = "42" := rfl
  have h42s : (NewIDStr "42").String = "42" := rfl
  refine ⟨?_, ?_, rfl, rfl⟩ <;>
    simp [Client.InvokeBatch, assignIds, processBatch, responseMapLookup,
      Invoke.JSONRPCRequest,
      hd, hrid, herr, hdec, he, hridE, herrE, hdecE, h42, h42s]

/-- Witness for C10: the string-id "42" request matched against an
integer-id 42 response, on concrete values. -/
theorem invokeBatch_correlates_by_string_rendering_witness :
    Client.InvokeBatch (fun _ => none)
      (fun _ => Except.ok (some ⟨[⟨"2.0", some (NewIDInt 42),
        some (JSONValue.str "r"), none⟩]⟩))
      (fun v => Except.ok v)
      [(⟨some (NewIDStr "42"), "m", some (JSONValue.str "p"), JSONValue.null⟩ :
          Invoke JSONValue)]
      = ([⟨some (NewIDStr "42"), "m", some (JSONValue.str "p"), JSONValue.str "r"⟩],
         none) :=
  (invokeBatch_correlates_by_string_rendering (fun v => Except.ok v) (fun _ => none)
    ⟨some (NewIDStr "42"), "m", some (JSONValue.str "p"), JSONValue.null⟩
    ⟨some (NewIDInt 42), "m2", some JSONValue.null, JSONValue.null⟩
    ⟨some (NewIDStr "42"), "m", some (JSONValue.str "p"), JSONValue.str "r"⟩
    ⟨some (NewIDInt 42), "m2", some JSONValue.null, JSONValue.str "x"⟩
    ⟨"2.0", some (NewIDInt 42), some (JSONValue.str "r"), none⟩
    ⟨"2.0", some (NewIDStr "42"), some (JSONValue.str "x"), none⟩
    rfl rfl rfl rfl rfl rfl rfl rfl).1

end JsonrpcClient
